import Mathlib

/-!
Shallow embedding of the window surface configuration and decoration
negotiation engine of `src/window/mod.rs` (smithay client toolkit fork).

The `Frame` trait is polymorphic in the source; it is embedded here as a
record of operations `FrameOps` over an abstract frame-state type, so every
theorem quantifies over all possible decoration renderers.  Sizes are `u32`
in the source and modelled as `Nat`; the `as i32` casts in the source are
modelled exactly by `i32ofU32` (two's-complement reinterpretation).
-/

namespace CTK

/-- XDG toplevel states (re-exported as `State` in window/mod.rs). -/
inductive State where
  | Maximized
  | Fullscreen
  | Resizing
  | Activated
  | TiledLeft
  | TiledRight
  | TiledTop
  | TiledBottom
deriving DecidableEq, Repr

/-- Decoration request modes (window/mod.rs, `enum Decorations`). -/
inductive Decorations where
  | ServerSide
  | ClientSide
  | FollowServer
  | None
deriving DecidableEq, Repr

/-- Events delivered to the application callback (window/mod.rs, `enum Event`). -/
inductive Event where
  | Configure (new_size : Option (Nat × Nat)) (states : List State)
  | Close
  | Refresh
deriving DecidableEq, Repr

/-- Rust `x as i32` applied to a `u32` value: two's-complement
reinterpretation of the low 32 bits. -/
def i32ofU32 (n : Nat) : Int :=
  if n % 4294967296 < 2147483648 then ((n % 4294967296 : Nat) : Int)
  else ((n % 4294967296 : Nat) : Int) - 4294967296

/-- The mutable negotiation state (window/mod.rs, `struct WindowInner`),
restricted to the plain-data fields; the frame and shell handles are
threaded separately in this embedding. -/
structure WindowInner where
  min_size : Nat × Nat
  max_size : Option (Nat × Nat)
  current_size : Nat × Nat
  old_size : Option (Nat × Nat)
  decorated : Bool
deriving DecidableEq, Repr

/-- Abstract embedding of the `Frame` trait (window/mod.rs lines 759-820):
a record of the operations the window core calls, over an arbitrary
frame-state type `φ`.  `set_states` returns the updated frame state and the
`need_refresh` boolean. -/
structure FrameOps (φ : Type) where
  set_states : φ → List State → φ × Bool
  set_hidden : φ → Bool → φ
  set_resizable : φ → Bool → φ
  new_seat : φ → Nat → φ
  remove_seat : φ → Nat → φ
  resize : φ → Nat × Nat → φ
  redraw : φ → φ
  subtract_borders : φ → Int → Int → Int × Int
  add_borders : φ → Int → Int → Int × Int
  location : φ → Int × Int
  set_title : φ → φ

/-- A `Configure` event from the shell surface
(`shell::Event::Configure { states, new_size }`). -/
structure ConfigureMsg where
  states : List State
  new_size : Option (Nat × Nat)
deriving DecidableEq, Repr

/-- Whether the state list makes the configure handler stash the current
size (window/mod.rs lines 284-298). -/
def shouldStashSize (states : List State) : Bool :=
  states.any fun s =>
    match s with
    | State.Maximized => true
    | State.Fullscreen => true
    | State.TiledTop => true
    | State.TiledRight => true
    | State.TiledBottom => true
    | State.TiledLeft => true
    | _ => false

/-- The size clamping of the configure handler (window/mod.rs lines 270-281):
subtract borders, floor at `min_size`, cap at `max_size` when set, and floor
each dimension at 1.  `sb` is `frame.subtract_borders` after `set_states`. -/
def clampNewSize (sb : Int → Int → Int × Int)
    (min_size : Nat × Nat) (max_size : Option (Nat × Nat))
    (wh : Nat × Nat) : Nat × Nat :=
  let p := sb (i32ofU32 wh.1) (i32ofU32 wh.2)
  let w := max p.1 (i32ofU32 min_size.1)
  let h := max p.2 (i32ofU32 min_size.2)
  let q : Int × Int :=
    match max_size with
    | some m => (min w (i32ofU32 m.1), min h (i32ofU32 m.2))
    | none => (w, h)
  ((max q.1 1).toNat, (max q.2 1).toNat)

/-- The clamping step as described by the specification text: subtract
border geometry, then take the max with `min_size`, then the min with
`max_size` when it is set, and finally floor each dimension at 1. -/
def clampSpecFormula (sb : Int → Int → Int × Int)
    (min_size : Nat × Nat) (max_size : Option (Nat × Nat))
    (wh : Nat × Nat) : Nat × Nat :=
  let c := sb (i32ofU32 wh.1) (i32ofU32 wh.2)
  let w1 := max c.1 (i32ofU32 min_size.1)
  let h1 := max c.2 (i32ofU32 min_size.2)
  let w2 := match max_size with | some m => min w1 (i32ofU32 m.1) | none => w1
  let h2 := match max_size with | some m => min h1 (i32ofU32 m.2) | none => h1
  ((max w2 1).toNat, (max h2 1).toNat)

/-- The configure-event handler (window/mod.rs lines 262-321).  Returns the
updated frame state, the updated window inner state, and the list of events
delivered to the application callback, in order. -/
def configureStep {φ : Type} (ops : FrameOps φ) (fr : φ) (inner : WindowInner)
    (msg : ConfigureMsg) : φ × WindowInner × List Event :=
  let sres := ops.set_states fr msg.states
  let fr := sres.1
  let need_refresh := sres.2
  let new_size := msg.new_size.map
    (clampNewSize (ops.subtract_borders fr) inner.min_size inner.max_size)
  let should_stash_size := shouldStashSize msg.states
  let st : WindowInner × Option (Nat × Nat) :=
    if should_stash_size then
      if inner.old_size = none then
        ({ inner with old_size := some inner.current_size }, new_size)
      else
        (inner, new_size)
    else if new_size = none then
      ({ inner with old_size := none }, inner.old_size)
    else
      ({ inner with old_size := none }, new_size)
  let events := (if need_refresh then [Event.Refresh] else []) ++
    [Event.Configure st.2 msg.states]
  (fr, st.1, events)

/-- Run a list of configure events, keeping the frame and inner state
(the emitted events are dropped). -/
def runConfigures {φ : Type} (ops : FrameOps φ) (p : φ × WindowInner)
    (es : List ConfigureMsg) : φ × WindowInner :=
  es.foldl (fun q e =>
    let r := configureStep ops q.1 q.2 e
    (r.1, r.2.1)) p

/-- Default minimum window size (window/mod.rs line 31). -/
def MIN_WINDOW_SIZE : Nat × Nat := (2, 1)

/-- The `WindowInner` value constructed at the end of
`init_with_decorations` (window/mod.rs lines 364-373). -/
def mkWindowInner (initial_dims : Nat × Nat) : WindowInner :=
  { min_size := MIN_WINDOW_SIZE
    max_size := none
    current_size := initial_dims
    old_size := none
    decorated := true }

/-- A trivial frame over a unit state: borders are zero-sized and
`set_states` never requests a refresh.  Used to evaluate the model on
concrete inputs. -/
def trivOps : FrameOps Unit :=
  { set_states := fun _ _ => ((), false)
    set_hidden := fun _ _ => ()
    set_resizable := fun _ _ => ()
    new_seat := fun _ _ => ()
    remove_seat := fun _ _ => ()
    resize := fun _ _ => ()
    redraw := fun _ => ()
    subtract_borders := fun _ a b => (a, b)
    add_borders := fun _ a b => (a, b)
    location := fun _ => (0, 0)
    set_title := fun f => f }

/-- Side effects of `Window::resize` observable by the frame and the shell
surface. -/
inductive Effect where
  | FrameResize (wh : Nat × Nat)
  | SetGeometry (x y w h : Int)
deriving DecidableEq, Repr

/-- `Window::resize` (window/mod.rs lines 601-613): clamp each dimension to
at least 1, update `current_size` when the inner state is present, resize
the frame, and send `set_geometry` with border-inclusive size and the frame
location. -/
def window_resize {φ : Type} (ops : FrameOps φ) (fr : φ)
    (inner : Option WindowInner) (w h : Nat) :
    φ × Option WindowInner × List Effect :=
  let w := max w 1
  let h := max h 1
  let inner := inner.map fun i => { i with current_size := (w, h) }
  let fr := ops.resize fr (w, h)
  let ab := ops.add_borders fr (i32ofU32 w) (i32ofU32 h)
  let loc := ops.location fr
  (fr, inner,
    [Effect.FrameResize (w, h), Effect.SetGeometry loc.1 loc.2 ab.1 ab.2])

/-- `Window::set_min_size` (window/mod.rs lines 655-662), restricted to the
stored inner state: `inner.min_size := size.unwrap_or(MIN_WINDOW_SIZE)`. -/
def window_set_min_size (inner : Option WindowInner)
    (size : Option (Nat × Nat)) : Option WindowInner :=
  inner.map fun i => { i with min_size := size.getD MIN_WINDOW_SIZE }

/-- `Window::set_max_size` (window/mod.rs lines 676-682), restricted to the
stored inner state: `inner.max_size := size`. -/
def window_set_max_size (inner : Option WindowInner)
    (size : Option (Nat × Nat)) : Option WindowInner :=
  inner.map fun i => { i with max_size := size }

/-- The `inner.decorated` update at the top of `set_decorate`
(window/mod.rs lines 504-510): false exactly for `Decorations::None`. -/
def decoratedFlag (d : Decorations) : Bool :=
  match d with
  | Decorations.None => false
  | _ => true

/-- Requests sent to the server-side decoration object by `set_decorate`. -/
inductive DecoRequest where
  | SetModeServerSide
  | SetModeClientSide
  | UnsetMode
  | Destroy
deriving DecidableEq, Repr

/-- `Window::set_decorate` (window/mod.rs lines 500-555).  Arguments: the
inner state, whether the decoration object is present.  Returns the updated
inner state, whether the decoration object is still present, the argument
of the `Frame::set_hidden` call when one is made, and the requests sent to
the decoration object. -/
def set_decorate (inner : Option WindowInner) (decorationPresent : Bool)
    (decorate : Decorations) :
    Option WindowInner × Bool × Option Bool × List DecoRequest :=
  let inner := inner.map fun i => { i with decorated := decoratedFlag decorate }
  match decorationPresent, decorate with
  | true, Decorations.ClientSide =>
      (inner, false, some false, [DecoRequest.Destroy])
  | true, Decorations.ServerSide =>
      (inner, true, none, [DecoRequest.SetModeServerSide])
  | true, Decorations.FollowServer =>
      (inner, true, none, [DecoRequest.UnsetMode])
  | true, Decorations.None =>
      (inner, true, some true, [DecoRequest.SetModeClientSide])
  | false, Decorations.None =>
      (inner, false, some true, [])
  | false, _ =>
      (inner, false, some false, [])

/-- Run a sequence of `set_decorate` calls with no decoration object
present, threading the inner state and the hidden flag (the hidden flag is
the argument of the last `Frame::set_hidden` call). -/
def runSetDecorateNoMgr (p : Option WindowInner × Bool)
    (ds : List Decorations) : Option WindowInner × Bool :=
  ds.foldl (fun q d =>
    let r := set_decorate q.1 false d
    (r.1, (r.2.2.1).getD q.2)) p

/-- Decoration modes of the zxdg_toplevel_decoration_v1 protocol. -/
inductive DecorationMode where
  | ServerSide
  | ClientSide
deriving DecidableEq, Repr

/-- The decoration-mode event handler (window/mod.rs lines 411-429):
returns the value passed to `Frame::set_hidden`. -/
def decorationModeHidden (inner : Option WindowInner)
    (mode : DecorationMode) : Bool :=
  match mode with
  | DecorationMode.ServerSide => true
  | DecorationMode.ClientSide => !((inner.map fun i => i.decorated).getD false)

/-- Per-seat capability data used by the seat listener
(`seat_data.has_pointer`, `seat_data.defunct`). -/
structure SeatData where
  has_pointer : Bool
  defunct : Bool
deriving DecidableEq, Repr

/-- Calls made on the frame by the seat listener. -/
inductive SeatEffect where
  | NewSeat (s : Nat)
  | RemoveSeat (s : Nat)
deriving DecidableEq, Repr

/-- The seat-capability listener (window/mod.rs lines 353-362).  Seats are
identified by naturals; returns the updated tracked list and the frame
calls made. -/
def seatListenerStep (seats : List Nat) (seat : Nat) (sd : SeatData) :
    List Nat × List SeatEffect :=
  let is_known := seats.contains seat
  if !is_known && sd.has_pointer && !sd.defunct then
    (seats ++ [seat], [SeatEffect.NewSeat seat])
  else if is_known && (!sd.has_pointer || sd.defunct) then
    (seats.filter (fun s => s != seat), [SeatEffect.RemoveSeat seat])
  else
    (seats, [])

/-- Whole-window state for the operation-level transition system: the
abstract frame state, the hidden flag (argument of the last
`Frame::set_hidden` call), whether the decoration object is present, and
the optional inner state. -/
structure WindowSt (φ : Type) where
  fr : φ
  hidden : Bool
  decorationPresent : Bool
  inner : Option WindowInner
deriving Repr

/-- Window state right after `init_with_decorations` (window/mod.rs lines
242-381): with no decoration manager the frame is shown
(`set_hidden(false)`), the frame is resized to the initial dimensions, and
the inner state is installed.  `h0` is the frame's hidden flag before
initialization (frame-defined). -/
def initWindowSt {φ : Type} (ops : FrameOps φ) (fr : φ) (h0 : Bool)
    (hasDecoMgr : Bool) (dims : Nat × Nat) : WindowSt φ :=
  let fr := if hasDecoMgr then fr else ops.set_hidden fr false
  let hidden := if hasDecoMgr then h0 else false
  let fr := ops.resize fr dims
  { fr := fr
    hidden := hidden
    decorationPresent := hasDecoMgr
    inner := some (mkWindowInner dims) }

/-- Public operations and incoming events of the window, as far as they
touch the window state (requests merely forwarded to the shell surface are
represented but leave the state unchanged). -/
inductive Op where
  | opResize (w h : Nat)
  | opSetMinSize (s : Option (Nat × Nat))
  | opSetMaxSize (s : Option (Nat × Nat))
  | opConfigure (msg : ConfigureMsg)
  | opSetDecorate (d : Decorations)
  | opDecorationMode (m : DecorationMode)
  | opSetResizable (b : Bool)
  | opSetTitle
  | opSetAppId
  | opSetMaximized
  | opUnsetMaximized
  | opSetMinimized
  | opSetFullscreen
  | opUnsetFullscreen
  | opMove
  | opRefresh
deriving DecidableEq, Repr

/-- One step of the window transition system: dispatch an operation or
event against the current window state. -/
def stepOp {φ : Type} (ops : FrameOps φ) (st : WindowSt φ) (op : Op) :
    WindowSt φ :=
  match op with
  | Op.opResize w h =>
      let r := window_resize ops st.fr st.inner w h
      { st with fr := r.1, inner := r.2.1 }
  | Op.opSetMinSize s => { st with inner := window_set_min_size st.inner s }
  | Op.opSetMaxSize s => { st with inner := window_set_max_size st.inner s }
  | Op.opConfigure msg =>
      match st.inner with
      | none => st
      | some i =>
          let r := configureStep ops st.fr i msg
          { st with fr := r.1, inner := some r.2.1 }
  | Op.opSetDecorate d =>
      let r := set_decorate st.inner st.decorationPresent d
      { st with
        inner := r.1
        decorationPresent := r.2.1
        hidden := (r.2.2.1).getD st.hidden
        fr := match r.2.2.1 with
          | some b => ops.set_hidden st.fr b
          | none => st.fr }
  | Op.opDecorationMode m =>
      let b := decorationModeHidden st.inner m
      { st with hidden := b, fr := ops.set_hidden st.fr b }
  | Op.opSetResizable b => { st with fr := ops.set_resizable st.fr b }
  | Op.opSetTitle => { st with fr := ops.set_title st.fr }
  | Op.opRefresh => { st with fr := ops.redraw st.fr }
  | Op.opSetAppId => st
  | Op.opSetMaximized => st
  | Op.opUnsetMaximized => st
  | Op.opSetMinimized => st
  | Op.opSetFullscreen => st
  | Op.opUnsetFullscreen => st
  | Op.opMove => st

/-- Run a list of operations from a window state. -/
def runOps {φ : Type} (ops : FrameOps φ) (st : WindowSt φ) (l : List Op) :
    WindowSt φ :=
  l.foldl (stepOp ops) st

/-- The claimed size invariant: both components of `current_size` are at
least 1. -/
def sizeInvB (i : WindowInner) : Bool :=
  decide (1 ≤ i.current_size.1) && decide (1 ≤ i.current_size.2)

/-- The claimed bound invariant: when `max_size` is set, `min_size` is
componentwise at most `max_size`. -/
def boundsInvB (i : WindowInner) : Bool :=
  match i.max_size with
  | none => true
  | some m => decide (i.min_size.1 ≤ m.1) && decide (i.min_size.2 ≤ m.2)

/-- Both claimed invariants, lifted to the optional inner state. -/
def innerInvB : Option WindowInner → Bool
  | none => true
  | some i => sizeInvB i && boundsInvB i

/-- The bound invariant alone, lifted to the optional inner state. -/
def boundsInvOB : Option WindowInner → Bool
  | none => true
  | some i => boundsInvB i

/-- A step is a consistent-bound step when, if it is a `set_min_size` or
`set_max_size`, the bounds it leaves behind are componentwise consistent. -/
def stepGoodB {φ : Type} (st : WindowSt φ) : Op → Bool
  | Op.opSetMinSize s => boundsInvOB (window_set_min_size st.inner s)
  | Op.opSetMaxSize s => boundsInvOB (window_set_max_size st.inner s)
  | _ => true

/-- A run is good when every `set_min_size`/`set_max_size` step in it is a
consistent-bound step, judged at the state where it is applied. -/
def goodRunB {φ : Type} (ops : FrameOps φ) : WindowSt φ → List Op → Bool
  | _, [] => true
  | st, op :: l => stepGoodB st op && goodRunB ops (stepOp ops st op) l

/-! ### Helper lemmas -/

/-- The code's clamp and the spec's clamp formula agree. -/
theorem clampNewSize_eq_spec (sb : Int → Int → Int × Int)
    (mn : Nat × Nat) (mx : Option (Nat × Nat)) (wh : Nat × Nat) :
    clampNewSize sb mn mx wh = clampSpecFormula sb mn mx wh := by
  cases mx <;> rfl

/-- On a `u32` value below 2^31, the `as i32` cast is the identity. -/
theorem i32ofU32_of_lt {n : Nat} (h : n < 2147483648) :
    i32ofU32 n = (n : Int) := by
  unfold i32ofU32
  rw [Nat.mod_eq_of_lt (by omega)]
  simp [h]

/-- When a size is suggested, the configure handler emits exactly an
optional refresh followed by a configure event carrying the clamped
size. -/
theorem configure_events_suggested {φ : Type} (ops : FrameOps φ) (fr : φ)
    (inner : WindowInner) (states : List State) (s : Nat × Nat) :
    (configureStep ops fr inner ⟨states, some s⟩).2.2 =
      (if (ops.set_states fr states).2 then [Event.Refresh] else []) ++
        [Event.Configure
          (some (clampNewSize (ops.subtract_borders (ops.set_states fr states).1)
            inner.min_size inner.max_size s)) states] := by
  unfold configureStep
  dsimp only [Option.map]
  split
  all_goals split
  all_goals first
    | rfl
    | (split <;> rfl)

/-- The configure handler never changes `min_size`, `max_size` or
`current_size`. -/
theorem configure_preserves_sizes {φ : Type} (ops : FrameOps φ) (fr : φ)
    (inner : WindowInner) (msg : ConfigureMsg) :
    (configureStep ops fr inner msg).2.1.min_size = inner.min_size ∧
    (configureStep ops fr inner msg).2.1.max_size = inner.max_size ∧
    (configureStep ops fr inner msg).2.1.current_size = inner.current_size := by
  unfold configureStep
  dsimp only
  split
  · split <;> exact ⟨rfl, rfl, rfl⟩
  · split <;> exact ⟨rfl, rfl, rfl⟩

/-- Entering a constrained state with no stashed size stashes the current
size and changes nothing else. -/
theorem configure_stash {φ : Type} (ops : FrameOps φ) (fr : φ)
    (inner : WindowInner) (msg : ConfigureMsg)
    (h0 : inner.old_size = none) (h1 : shouldStashSize msg.states = true) :
    (configureStep ops fr inner msg).2.1 =
      { inner with old_size := some inner.current_size } := by
  unfold configureStep
  simp [h0, h1]

/-- A configure event in a constrained state with a stashed size present
leaves the inner state unchanged. -/
theorem configure_constrained_keeps {φ : Type} (ops : FrameOps φ) (fr : φ)
    (inner : WindowInner) (msg : ConfigureMsg) (v : Nat × Nat)
    (h0 : inner.old_size = some v) (h1 : shouldStashSize msg.states = true) :
    (configureStep ops fr inner msg).2.1 = inner := by
  unfold configureStep
  simp [h0, h1]

/-- Running configure events that all carry a constrained state, with a
stashed size present, leaves the inner state unchanged. -/
theorem runConfigures_constrained_keeps {φ : Type} (ops : FrameOps φ)
    (es : List ConfigureMsg) :
    ∀ (fr : φ) (inner : WindowInner) (v : Nat × Nat),
      inner.old_size = some v →
      (∀ e ∈ es, shouldStashSize e.states = true) →
      (runConfigures ops (fr, inner) es).2 = inner := by
  induction es with
  | nil => intro fr inner v _ _; rfl
  | cons e es ih =>
      intro fr inner v h0 hall
      have he : shouldStashSize e.states = true := hall e (List.mem_cons_self e es)
      have hkeep := configure_constrained_keeps ops fr inner e v h0 he
      show (runConfigures ops
        ((configureStep ops fr inner e).1, (configureStep ops fr inner e).2.1) es).2 = inner
      rw [hkeep]
      exact ih (configureStep ops fr inner e).1 inner v h0
        (fun x hx => hall x (List.mem_cons_of_mem e hx))

/-- A configure event with no constrained state and no suggested size
restores the stashed size: it emits it in the configure event and clears
the stash. -/
theorem configure_restore {φ : Type} (ops : FrameOps φ) (fr : φ)
    (inner : WindowInner) (msg : ConfigureMsg) (v : Nat × Nat)
    (h0 : inner.old_size = some v)
    (h1 : shouldStashSize msg.states = false)
    (h2 : msg.new_size = none) :
    (configureStep ops fr inner msg).2.1 = { inner with old_size := none } ∧
    (configureStep ops fr inner msg).2.2 =
      (if (ops.set_states fr msg.states).2 then [Event.Refresh] else []) ++
        [Event.Configure (some v) msg.states] := by
  unfold configureStep
  simp [h0, h1, h2]

/-! ### Claims -/

/-- C2: for every Configure event whose suggested size is present, the
emitted content-size candidate equals `Frame::subtract_borders` of the
suggested size, clamped componentwise by first taking the max with
`min_size`, then (when `max_size` is set) the min with `max_size`, and
finally the max with 1 on each dimension. -/
theorem configure_clamp_formula {φ : Type} (ops : FrameOps φ) (fr : φ)
    (inner : WindowInner) (states : List State) (s : Nat × Nat) :
    ∃ pre, (configureStep ops fr inner ⟨states, some s⟩).2.2 =
      pre ++ [Event.Configure
        (some (clampSpecFormula (ops.subtract_borders (ops.set_states fr states).1)
          inner.min_size inner.max_size s)) states] := by
  refine ⟨if (ops.set_states fr states).2 then [Event.Refresh] else [], ?_⟩
  rw [configure_events_suggested, clampNewSize_eq_spec]

/-- C4: for every Configure event, the events delivered to the application
are exactly a `Refresh` (present when `Frame::set_states` returned true,
absent when it returned false) followed by the `Configure` event; so a
refresh is delivered strictly before the configure when `need_refresh`
holds, and no refresh is delivered otherwise. -/
theorem configure_refresh_before {φ : Type} (ops : FrameOps φ) (fr : φ)
    (inner : WindowInner) (msg : ConfigureMsg) :
    ∃ ns, (configureStep ops fr inner msg).2.2 =
      (if (ops.set_states fr msg.states).2 then [Event.Refresh] else []) ++
        [Event.Configure ns msg.states] :=
  ⟨_, rfl⟩

/-- C6: while the window is initialized, a `ServerSide` decoration-mode
event sets the frame's hidden flag to true, and a `ClientSide` one sets it
to the negation of `decorated`; `set_decorate` records
`decorated = false` exactly for `Decorations::None` and the initial inner
state has `decorated = true`. -/
theorem decoration_mode_hidden (i : WindowInner) (dp : Bool)
    (d : Decorations) (dims : Nat × Nat) :
    decorationModeHidden (some i) DecorationMode.ServerSide = true ∧
    decorationModeHidden (some i) DecorationMode.ClientSide = !i.decorated ∧
    (set_decorate (some i) dp d).1 =
      some { i with decorated := decoratedFlag d } ∧
    (mkWindowInner dims).decorated = true := by
  refine ⟨rfl, rfl, ?_, rfl⟩
  cases dp <;> cases d <;> rfl

/-- C8: after `resize(w, h)` the stored `current_size` equals
`(max w 1, max h 1)`, `Frame::resize` is called with exactly that clamped
size, and `set_geometry` is issued with `Frame::add_borders` of the clamped
size and `Frame::location` as origin. -/
theorem resize_postcondition {φ : Type} (ops : FrameOps φ) (fr : φ)
    (i : WindowInner) (w h : Nat) :
    (window_resize ops fr (some i) w h).2.1 =
      some { i with current_size := (max w 1, max h 1) } ∧
    (window_resize ops fr (some i) w h).2.2 =
      [Effect.FrameResize (max w 1, max h 1),
       Effect.SetGeometry
         (ops.location (ops.resize fr (max w 1, max h 1))).1
         (ops.location (ops.resize fr (max w 1, max h 1))).2
         (ops.add_borders (ops.resize fr (max w 1, max h 1))
           (i32ofU32 (max w 1)) (i32ofU32 (max h 1))).1
         (ops.add_borders (ops.resize fr (max w 1, max h 1))
           (i32ofU32 (max w 1)) (i32ofU32 (max h 1))).2] :=
  ⟨rfl, rfl⟩

/-- C10: when the inner window state is absent (window under construction
or already dropped), a `ClientSide` decoration-mode event treats
`decorated` as false and sets the hidden flag to true, and a `ServerSide`
event also sets it to true. -/
theorem decoration_mode_uninitialized :
    decorationModeHidden none DecorationMode.ClientSide = true ∧
    decorationModeHidden none DecorationMode.ServerSide = true :=
  ⟨rfl, rfl⟩

/-- C1: starting with no stashed size, a Configure event carrying a
constrained state stashes the then-current size; further constrained
Configure events (in particular a second consecutive one) do not re-stash;
a following Configure event with no constrained state and no suggested
size emits `Event::Configure` carrying exactly the size that was current
immediately before the first constrained transition, and clears the
stash. -/
theorem configure_stash_restore {φ : Type} (ops : FrameOps φ) (fr : φ)
    (inner : WindowInner) (e1 e3 : ConfigureMsg) (rest : List ConfigureMsg)
    (h0 : inner.old_size = none)
    (h1 : shouldStashSize e1.states = true)
    (h2 : ∀ e ∈ rest, shouldStashSize e.states = true)
    (h3 : shouldStashSize e3.states = false)
    (h4 : e3.new_size = none) :
    (configureStep ops fr inner e1).2.1.old_size = some inner.current_size ∧
    (runConfigures ops ((configureStep ops fr inner e1).1,
        (configureStep ops fr inner e1).2.1) rest).2.old_size =
      some inner.current_size ∧
    Event.Configure (some inner.current_size) e3.states ∈
      (configureStep ops
        (runConfigures ops ((configureStep ops fr inner e1).1,
          (configureStep ops fr inner e1).2.1) rest).1
        (runConfigures ops ((configureStep ops fr inner e1).1,
          (configureStep ops fr inner e1).2.1) rest).2 e3).2.2 ∧
    (configureStep ops
      (runConfigures ops ((configureStep ops fr inner e1).1,
        (configureStep ops fr inner e1).2.1) rest).1
      (runConfigures ops ((configureStep ops fr inner e1).1,
        (configureStep ops fr inner e1).2.1) rest).2 e3).2.1.old_size =
      none := by
  have hstash := configure_stash ops fr inner e1 h0 h1
  have hold1 : (configureStep ops fr inner e1).2.1.old_size =
      some inner.current_size := by rw [hstash]
  have hkeep := runConfigures_constrained_keeps ops rest
    (configureStep ops fr inner e1).1 (configureStep ops fr inner e1).2.1
    inner.current_size hold1 h2
  have hres := configure_restore ops
    (runConfigures ops ((configureStep ops fr inner e1).1,
      (configureStep ops fr inner e1).2.1) rest).1
    (configureStep ops fr inner e1).2.1 e3 inner.current_size hold1 h3 h4
  refine ⟨hold1, ?_, ?_, ?_⟩
  · rw [hkeep]; exact hold1
  · rw [hkeep, hres.2]; simp
  · rw [hkeep, hres.1]

/-- Concrete run of C1: current size (800, 600), two consecutive maximized
configures, then an unconstrained configure with no suggested size. -/
theorem configure_stash_restore_witness :
    (mkWindowInner (800, 600)).old_size = none ∧
    shouldStashSize [State.Maximized] = true ∧
    (∀ e ∈ ([⟨[State.Maximized], none⟩] : List ConfigureMsg),
      shouldStashSize e.states = true) ∧
    shouldStashSize ([] : List State) = false ∧
    ((configureStep trivOps () (mkWindowInner (800, 600))
        ⟨[State.Maximized], some (1920, 1080)⟩).2.1.old_size =
      some (800, 600) ∧
    (runConfigures trivOps
        ((configureStep trivOps () (mkWindowInner (800, 600))
            ⟨[State.Maximized], some (1920, 1080)⟩).1,
          (configureStep trivOps () (mkWindowInner (800, 600))
            ⟨[State.Maximized], some (1920, 1080)⟩).2.1)
        [⟨[State.Maximized], none⟩]).2.old_size = some (800, 600) ∧
    Event.Configure (some (800, 600)) [] ∈
      (configureStep trivOps
        (runConfigures trivOps
          ((configureStep trivOps () (mkWindowInner (800, 600))
              ⟨[State.Maximized], some (1920, 1080)⟩).1,
            (configureStep trivOps () (mkWindowInner (800, 600))
              ⟨[State.Maximized], some (1920, 1080)⟩).2.1)
          [⟨[State.Maximized], none⟩]).1
        (runConfigures trivOps
          ((configureStep trivOps () (mkWindowInner (800, 600))
              ⟨[State.Maximized], some (1920, 1080)⟩).1,
            (configureStep trivOps () (mkWindowInner (800, 600))
              ⟨[State.Maximized], some (1920, 1080)⟩).2.1)
          [⟨[State.Maximized], none⟩]).2 ⟨[], none⟩).2.2 ∧
    (configureStep trivOps
        (runConfigures trivOps
          ((configureStep trivOps () (mkWindowInner (800, 600))
              ⟨[State.Maximized], some (1920, 1080)⟩).1,
            (configureStep trivOps () (mkWindowInner (800, 600))
              ⟨[State.Maximized], some (1920, 1080)⟩).2.1)
          [⟨[State.Maximized], none⟩]).1
        (runConfigures trivOps
          ((configureStep trivOps () (mkWindowInner (800, 600))
              ⟨[State.Maximized], some (1920, 1080)⟩).1,
            (configureStep trivOps () (mkWindowInner (800, 600))
              ⟨[State.Maximized], some (1920, 1080)⟩).2.1)
          [⟨[State.Maximized], none⟩]).2 ⟨[], none⟩).2.1.old_size = none) :=
  ⟨rfl, rfl, by decide, rfl,
    configure_stash_restore trivOps () (mkWindowInner (800, 600))
      ⟨[State.Maximized], some (1920, 1080)⟩ ⟨[], none⟩
      [⟨[State.Maximized], none⟩] rfl rfl (by decide) rfl rfl⟩

/-- With no decoration object, each `set_decorate` call maps the inner
state's `decorated` flag and calls `Frame::set_hidden` with true exactly
for `Decorations::None`. -/
theorem runSetDecorateNoMgr_append (d : Decorations) (ds : List Decorations) :
    ∀ (i : WindowInner) (hid : Bool),
      runSetDecorateNoMgr (some i, hid) (ds ++ [d]) =
        (some { i with decorated := decoratedFlag d },
          match d with
          | Decorations.None => true
          | _ => false) := by
  induction ds with
  | nil => intro i hid; cases d <;> rfl
  | cons e es ih =>
      intro i hid
      cases e <;> exact ih _ _

/-- C5 counterexample: with no decoration manager, a single
`set_decorate(Decorations::None)` call leaves the frame's hidden flag
true, not false. -/
theorem no_manager_hidden_cex :
    (runSetDecorateNoMgr (some (mkWindowInner (1, 1)), false)
      [Decorations.None]).2 ≠ false := by decide

/-- C5 (amended): with no decoration manager the frame's hidden flag is
false initially and after any sequence of `set_decorate` calls whose last
call is not `Decorations::None`; after a sequence ending in
`Decorations::None` it is true; the requested value is stored in
`decorated`. -/
theorem no_manager_hidden (i : WindowInner) (ds : List Decorations) :
    (runSetDecorateNoMgr (some i, false) ds).2 =
      (match ds.getLast? with
        | some Decorations.None => true
        | _ => false) ∧
    (runSetDecorateNoMgr (some i, false) ds).1 =
      some { i with decorated :=
        (match ds.getLast? with
          | some d => decoratedFlag d
          | none => i.decorated) } := by
  induction ds using List.reverseRecOn with
  | nil => exact ⟨rfl, rfl⟩
  | append_singleton ds d _ =>
      rw [runSetDecorateNoMgr_append d ds i false]
      rw [List.getLast?_concat]
      cases d <;> exact ⟨rfl, rfl⟩

/-- A list not containing an element is unchanged by filtering that
element out. -/
theorem filter_ne_of_not_mem (seats : List Nat) (seat : Nat)
    (h : seat ∉ seats) : seats.filter (fun s => s != seat) = seats := by
  apply List.filter_eq_self.mpr
  intro a ha
  simp only [bne_iff_ne, ne_eq]
  intro hc
  exact h (hc ▸ ha)

/-- C9: for a seat not initially tracked and never defunct, the
notification sequence gain-pointer, lose-pointer, gain-pointer leaves the
seat tracked, with `Frame::new_seat` called exactly twice and
`Frame::remove_seat` exactly once; a notification for an already-tracked
qualifying seat, or for an untracked non-qualifying seat, changes
nothing. -/
theorem seat_tracking :
    (∀ (seats : List Nat) (seat : Nat), seat ∉ seats →
      seat ∈ (seatListenerStep
          (seatListenerStep
            (seatListenerStep seats seat ⟨true, false⟩).1 seat
            ⟨false, false⟩).1 seat ⟨true, false⟩).1 ∧
      ((seatListenerStep seats seat ⟨true, false⟩).2 ++
        (seatListenerStep
          (seatListenerStep seats seat ⟨true, false⟩).1 seat
          ⟨false, false⟩).2 ++
        (seatListenerStep
          (seatListenerStep
            (seatListenerStep seats seat ⟨true, false⟩).1 seat
            ⟨false, false⟩).1 seat ⟨true, false⟩).2).count
          (SeatEffect.NewSeat seat) = 2 ∧
      ((seatListenerStep seats seat ⟨true, false⟩).2 ++
        (seatListenerStep
          (seatListenerStep seats seat ⟨true, false⟩).1 seat
          ⟨false, false⟩).2 ++
        (seatListenerStep
          (seatListenerStep
            (seatListenerStep seats seat ⟨true, false⟩).1 seat
            ⟨false, false⟩).1 seat ⟨true, false⟩).2).count
          (SeatEffect.RemoveSeat seat) = 1) ∧
    (∀ (seats : List Nat) (seat : Nat) (sd : SeatData), seat ∈ seats →
      sd.has_pointer = true → sd.defunct = false →
      seatListenerStep seats seat sd = (seats, [])) ∧
    (∀ (seats : List Nat) (seat : Nat) (sd : SeatData), seat ∉ seats →
      (sd.has_pointer = false ∨ sd.defunct = true) →
      seatListenerStep seats seat sd = (seats, [])) := by
  refine ⟨?_, ?_, ?_⟩
  · intro seats seat h
    have hc : seats.contains seat = false := by
      simpa using h
    have s1 : seatListenerStep seats seat ⟨true, false⟩ =
        (seats ++ [seat], [SeatEffect.NewSeat seat]) := by
      simp [seatListenerStep, hc, h]
    have hc2 : (seats ++ [seat]).contains seat = true := by
      simp
    have s2 : seatListenerStep (seats ++ [seat]) seat ⟨false, false⟩ =
        (seats, [SeatEffect.RemoveSeat seat]) := by
      simp [seatListenerStep, hc2, filter_ne_of_not_mem seats seat h]
    refine ⟨?_, ?_, ?_⟩ <;>
      simp [s1, s2, List.count_cons, List.count_append]
  · intro seats seat sd hm hp hd
    have hc : seats.contains seat = true := by simpa using hm
    simp [seatListenerStep, hc, hm, hp, hd]
  · intro seats seat sd hm hpd
    have hc : seats.contains seat = false := by simpa using hm
    rcases hpd with hp | hd
    · simp [seatListenerStep, hc, hm, hp]
    · simp [seatListenerStep, hc, hm, hd]

/-- Concrete run of C9 at seat 7, starting from a tracker knowing seat 3. -/
theorem seat_tracking_witness :
    ((7 : Nat) ∉ ([3] : List Nat) ∧
      7 ∈ (seatListenerStep
          (seatListenerStep
            (seatListenerStep [3] 7 ⟨true, false⟩).1 7 ⟨false, false⟩).1 7
          ⟨true, false⟩).1 ∧
      ((seatListenerStep [3] 7 ⟨true, false⟩).2 ++
        (seatListenerStep (seatListenerStep [3] 7 ⟨true, false⟩).1 7
          ⟨false, false⟩).2 ++
        (seatListenerStep
          (seatListenerStep
            (seatListenerStep [3] 7 ⟨true, false⟩).1 7 ⟨false, false⟩).1 7
          ⟨true, false⟩).2).count (SeatEffect.NewSeat 7) = 2 ∧
      ((seatListenerStep [3] 7 ⟨true, false⟩).2 ++
        (seatListenerStep (seatListenerStep [3] 7 ⟨true, false⟩).1 7
          ⟨false, false⟩).2 ++
        (seatListenerStep
          (seatListenerStep
            (seatListenerStep [3] 7 ⟨true, false⟩).1 7 ⟨false, false⟩).1 7
          ⟨true, false⟩).2).count (SeatEffect.RemoveSeat 7) = 1) ∧
    ((3 : Nat) ∈ ([3] : List Nat) ∧
      seatListenerStep [3] 3 ⟨true, false⟩ = ([3], [])) ∧
    ((9 : Nat) ∉ ([3] : List Nat) ∧
      seatListenerStep [3] 9 ⟨false, false⟩ = ([3], [])) :=
  ⟨⟨by decide, seat_tracking.1 [3] 7 (by decide)⟩,
    ⟨by decide, seat_tracking.2.1 [3] 3 ⟨true, false⟩ (by decide) rfl rfl⟩,
    ⟨by decide, seat_tracking.2.2 [3] 9 ⟨false, false⟩ (by decide)
      (Or.inl rfl)⟩⟩

/-- C3 counterexample: with min = (0, 1) and max = (0, 1) set via
`set_min_size`/`set_max_size` (so min ≤ max componentwise) and suggested
size (5, 5), the emitted size is (1, 1), whose width exceeds the maximum
width 0. -/
theorem negotiated_size_cex :
    window_set_max_size
        (window_set_min_size (some (mkWindowInner (1, 1))) (some (0, 1)))
        (some (0, 1)) =
      some { mkWindowInner (1, 1) with
        min_size := (0, 1), max_size := some (0, 1) } ∧
    (configureStep trivOps ()
        { mkWindowInner (1, 1) with
          min_size := (0, 1), max_size := some (0, 1) }
        ⟨[], some (5, 5)⟩).2.2 = [Event.Configure (some (1, 1)) []] ∧
    ¬ ((1 : Nat) ≤ 0) := by
  refine ⟨rfl, by decide, by decide⟩

/-- C3 (amended): for min ≤ max componentwise set via
`set_min_size`/`set_max_size`, with every component below 2^31 (so the
`as i32` casts are value-preserving) and both components of max at least 1,
the size emitted for any suggested size lies between min and max
componentwise. -/
theorem negotiated_size_bounds {φ : Type} (ops : FrameOps φ) (fr : φ)
    (i : WindowInner) (states : List State) (mn mx s : Nat × Nat)
    (hmn1 : mn.1 < 2147483648) (hmn2 : mn.2 < 2147483648)
    (hmx1 : mx.1 < 2147483648) (hmx2 : mx.2 < 2147483648)
    (hle1 : mn.1 ≤ mx.1) (hle2 : mn.2 ≤ mx.2)
    (hpos1 : 1 ≤ mx.1) (hpos2 : 1 ≤ mx.2) :
    window_set_max_size (window_set_min_size (some i) (some mn)) (some mx) =
      some { i with min_size := mn, max_size := some mx } ∧
    Event.Configure
        (some (clampNewSize
          (ops.subtract_borders (ops.set_states fr states).1) mn (some mx) s))
        states ∈
      (configureStep ops fr { i with min_size := mn, max_size := some mx }
        ⟨states, some s⟩).2.2 ∧
    mn.1 ≤ (clampNewSize
      (ops.subtract_borders (ops.set_states fr states).1) mn (some mx) s).1 ∧
    (clampNewSize
      (ops.subtract_borders (ops.set_states fr states).1) mn (some mx) s).1 ≤
      mx.1 ∧
    mn.2 ≤ (clampNewSize
      (ops.subtract_borders (ops.set_states fr states).1) mn (some mx) s).2 ∧
    (clampNewSize
      (ops.subtract_borders (ops.set_states fr states).1) mn (some mx) s).2 ≤
      mx.2 := by
  refine ⟨rfl, ?_, ?_⟩
  · rw [configure_events_suggested ops fr
      { i with min_size := mn, max_size := some mx } states s]
    simp
  · unfold clampNewSize
    dsimp only
    rw [i32ofU32_of_lt hmn1, i32ofU32_of_lt hmn2,
      i32ofU32_of_lt hmx1, i32ofU32_of_lt hmx2]
    refine ⟨?_, ?_, ?_, ?_⟩ <;> omega

/-- Concrete run of the amended C3: min (2, 3), max (10, 20), suggested
size (50, 60). -/
theorem negotiated_size_bounds_witness :
    ((2 : Nat) < 2147483648 ∧ (3 : Nat) < 2147483648 ∧
      (10 : Nat) < 2147483648 ∧ (20 : Nat) < 2147483648 ∧
      (2 : Nat) ≤ 10 ∧ (3 : Nat) ≤ 20 ∧ (1 : Nat) ≤ 10 ∧ (1 : Nat) ≤ 20) ∧
    (window_set_max_size
        (window_set_min_size (some (mkWindowInner (1, 1))) (some (2, 3)))
        (some (10, 20)) =
      some { mkWindowInner (1, 1) with
        min_size := (2, 3), max_size := some (10, 20) } ∧
    Event.Configure
        (some (clampNewSize
          (trivOps.subtract_borders (trivOps.set_states () []).1)
          (2, 3) (some (10, 20)) (50, 60))) [] ∈
      (configureStep trivOps ()
        { mkWindowInner (1, 1) with
          min_size := (2, 3), max_size := some (10, 20) }
        ⟨[], some (50, 60)⟩).2.2 ∧
    (2 : Nat) ≤ (clampNewSize
      (trivOps.subtract_borders (trivOps.set_states () []).1)
      (2, 3) (some (10, 20)) (50, 60)).1 ∧
    (clampNewSize (trivOps.subtract_borders (trivOps.set_states () []).1)
      (2, 3) (some (10, 20)) (50, 60)).1 ≤ 10 ∧
    (3 : Nat) ≤ (clampNewSize
      (trivOps.subtract_borders (trivOps.set_states () []).1)
      (2, 3) (some (10, 20)) (50, 60)).2 ∧
    (clampNewSize (trivOps.subtract_borders (trivOps.set_states () []).1)
      (2, 3) (some (10, 20)) (50, 60)).2 ≤ 20) :=
  ⟨⟨by decide, by decide, by decide, by decide, by decide, by decide,
    by decide, by decide⟩,
    negotiated_size_bounds trivOps () (mkWindowInner (1, 1)) []
      (2, 3) (10, 20) (50, 60) (by decide) (by decide) (by decide)
      (by decide) (by decide) (by decide) (by decide) (by decide)⟩

/-- `set_decorate` only touches the `decorated` field of the inner
state. -/
theorem set_decorate_inner (oi : Option WindowInner) (dp : Bool)
    (d : Decorations) :
    (set_decorate oi dp d).1 =
      oi.map fun i => { i with decorated := decoratedFlag d } := by
  cases dp <;> cases d <;> rfl

/-- Conjunction introduction for boolean conjunction. -/
theorem band_eq_true_of {a b : Bool} (ha : a = true) (hb : b = true) :
    (a && b) = true := by
  subst ha; subst hb; rfl

/-- Left projection of a boolean conjunction. -/
theorem band_left {a b : Bool} (h : (a && b) = true) : a = true :=
  (Bool.and_eq_true a b ▸ h).1

/-- Right projection of a boolean conjunction. -/
theorem band_right {a b : Bool} (h : (a && b) = true) : b = true :=
  (Bool.and_eq_true a b ▸ h).2

/-- One operation step preserves the (repaired) window invariants: the
size part unconditionally, the bound part for consistent-bound steps. -/
theorem stepOp_preserves_inv {φ : Type} (ops : FrameOps φ) (st : WindowSt φ)
    (op : Op) (h : innerInvB st.inner = true)
    (hg : stepGoodB st op = true) :
    innerInvB (stepOp ops st op).inner = true := by
  obtain ⟨f, hid, dp, oi⟩ := st
  cases oi with
  | none =>
      cases op with
      | opSetDecorate d => cases dp <;> cases d <;> rfl
      | opConfigure msg => rfl
      | opResize w h' => rfl
      | opSetMinSize s => rfl
      | opSetMaxSize s => rfl
      | opDecorationMode m => rfl
      | opSetResizable b => rfl
      | opSetTitle => rfl
      | opSetAppId => rfl
      | opSetMaximized => rfl
      | opUnsetMaximized => rfl
      | opSetMinimized => rfl
      | opSetFullscreen => rfl
      | opUnsetFullscreen => rfl
      | opMove => rfl
      | opRefresh => rfl
  | some i =>
      cases op with
      | opResize w h' =>
          show innerInvB
            (some { i with current_size := (max w 1, max h' 1) }) = true
          exact band_eq_true_of
            (band_eq_true_of (decide_eq_true (le_max_right w 1))
              (decide_eq_true (le_max_right h' 1)))
            (band_right h)
      | opSetMinSize s =>
          show innerInvB
            (some { i with min_size := s.getD MIN_WINDOW_SIZE }) = true
          exact band_eq_true_of (band_left h) hg
      | opSetMaxSize s =>
          show innerInvB (some { i with max_size := s }) = true
          exact band_eq_true_of (band_left h) hg
      | opConfigure msg =>
          obtain ⟨e1, e2, e3⟩ := configure_preserves_sizes ops f i msg
          show innerInvB (some (configureStep ops f i msg).2.1) = true
          simp only [innerInvB, sizeInvB, boundsInvB, e1, e2, e3]
          exact h
      | opSetDecorate d =>
          show innerInvB (set_decorate (some i) dp d).1 = true
          rw [set_decorate_inner]
          exact h
      | opDecorationMode m => exact h
      | opSetResizable b => exact h
      | opSetTitle => exact h
      | opSetAppId => exact h
      | opSetMaximized => exact h
      | opUnsetMaximized => exact h
      | opSetMinimized => exact h
      | opSetFullscreen => exact h
      | opUnsetFullscreen => exact h
      | opMove => exact h
      | opRefresh => exact h

/-- The invariants are preserved along any good run. -/
theorem runOps_inv {φ : Type} (ops : FrameOps φ) (l : List Op) :
    ∀ st : WindowSt φ, innerInvB st.inner = true →
      goodRunB ops st l = true →
      innerInvB (runOps ops st l).inner = true := by
  induction l with
  | nil => intro st h _; exact h
  | cons op l ih =>
      intro st h hg
      simp only [goodRunB, Bool.and_eq_true] at hg
      exact ih (stepOp ops st op) (stepOp_preserves_inv ops st op h hg.1)
        hg.2

/-- C7 counterexample: the window created with initial dims (0, 0) and the
reachable operation sequence `set_min_size (10, 10); set_max_size (1, 1)`
violates both claimed invariants (`current_size = (0, 0)` and
`min_size > max_size`). -/
theorem window_invariants_cex :
    innerInvB (runOps trivOps (initWindowSt trivOps () false false (0, 0))
      [Op.opSetMinSize (some (10, 10)),
        Op.opSetMaxSize (some (1, 1))]).inner = false := by decide

/-- C7 (amended): in every state reachable from window creation by public
operations and Configure events, the size invariant
`current_size ≥ (1, 1)` holds provided the initial dimensions are at least
(1, 1) componentwise, and the bound invariant `min_size ≤ max_size` (when
`max_size` is set) holds provided every `set_min_size`/`set_max_size` in
the sequence leaves a consistent pair at the state where it is applied
(the code itself enforces neither). -/
theorem window_invariants {φ : Type} (ops : FrameOps φ) (fr : φ)
    (h0 dm : Bool) (dims : Nat × Nat) (l : List Op)
    (hd1 : 1 ≤ dims.1) (hd2 : 1 ≤ dims.2)
    (hg : goodRunB ops (initWindowSt ops fr h0 dm dims) l = true) :
    innerInvB (runOps ops (initWindowSt ops fr h0 dm dims) l).inner =
      true := by
  refine runOps_inv ops l _ ?_ hg
  simp [initWindowSt, mkWindowInner, innerInvB, sizeInvB, boundsInvB,
    hd1, hd2]

/-- Concrete good run for the amended C7: initial dims (4, 3), then
consistent min/max updates, a resize, a maximizing configure and a
decoration change. -/
theorem window_invariants_witness :
    ((1 : Nat) ≤ 4 ∧ (1 : Nat) ≤ 3) ∧
    goodRunB trivOps (initWindowSt trivOps () false false (4, 3))
      [Op.opSetMinSize (some (2, 2)), Op.opSetMaxSize (some (9, 9)),
        Op.opResize 0 7, Op.opConfigure ⟨[State.Maximized], some (7, 7)⟩,
        Op.opSetDecorate Decorations.ClientSide] = true ∧
    innerInvB (runOps trivOps (initWindowSt trivOps () false false (4, 3))
      [Op.opSetMinSize (some (2, 2)), Op.opSetMaxSize (some (9, 9)),
        Op.opResize 0 7, Op.opConfigure ⟨[State.Maximized], some (7, 7)⟩,
        Op.opSetDecorate Decorations.ClientSide]).inner = true :=
  ⟨⟨by decide, by decide⟩, by decide,
    window_invariants trivOps () false false (4, 3)
      [Op.opSetMinSize (some (2, 2)), Op.opSetMaxSize (some (9, 9)),
        Op.opResize 0 7, Op.opConfigure ⟨[State.Maximized], some (7, 7)⟩,
        Op.opSetDecorate Decorations.ClientSide]
      (by decide) (by decide) (by decide)⟩

end CTK
